import Mathlib

/-!
Shallow embedding of the Earlygirl Pomodoro timer engine (src/src/main.rs).

Timestamps and durations (`Instant`, `f64` seconds) are modelled as `ℚ`.
`Instant::duration_since` saturates at zero when the other instant is
later, which is modelled by `durationSince`.  The `update` function
returns, alongside the new state, the list of notification messages sent
during the step (the `Notifier` collaborator is fire-and-forget in the
code, so only the message strings matter).
-/

/-- Mirrors `enum TimerType { WorkTime, BreakTime }`. -/
inductive TimerType
  | WorkTime
  | BreakTime
deriving Repr, DecidableEq

/-- Mirrors `enum TimerState { Idle, Ticking { last_tick: Instant } }`. -/
inductive TimerState
  | Idle
  | Ticking (last_tick : ℚ)
deriving Repr, DecidableEq

/-- Mirrors `struct EarlyGirlPreferences`. -/
structure EarlyGirlPreferences where
  work_interval : ℚ
  break_interval : ℚ
  auto_start_work : Bool
  auto_start_break : Bool
deriving Repr, DecidableEq

/-- Mirrors `impl Default for EarlyGirlPreferences` (45 min work, 15 min break). -/
def EarlyGirlPreferences.default : EarlyGirlPreferences :=
  { work_interval := 45 * 60
    break_interval := 15 * 60
    auto_start_work := false
    auto_start_break := false }

/-- Mirrors `struct Earlygirl` (the GUI `theme` field is dropped: it never
feeds back into the engine). -/
structure Earlygirl where
  current_timer_duration : ℚ
  interval : ℚ
  timer_type : TimerType
  timer_state : TimerState
  preferences : EarlyGirlPreferences
  show_modal : Bool
deriving Repr, DecidableEq

/-- Mirrors `enum Message`.  `Tick` carries the instant from the tick
source, exactly as `Message::Tick(Instant)` does. -/
inductive Message
  | Toggle
  | Tick (now : ℚ)
  | ToggleSettings
  | WorkIntervalChanged (v : ℚ)
  | BreakIntervalChanged (v : ℚ)
  | AutoStartWorkChanged (b : Bool)
  | AutoStartBreakChanged (b : Bool)
  | Reset
  | SwitchWorkType
deriving Repr, DecidableEq

/-- Mirrors `Instant::duration_since`: the elapsed time from `last` to
`now`, or zero if `last` is later than `now` (the method saturates). -/
def durationSince (now last : ℚ) : ℚ :=
  if now ≤ last then 0 else now - last

/-- Mirrors `Earlygirl::new` as far as the engine is concerned: the
preference store either yields stored preferences or the load fails and
defaults are used (`load(..).unwrap_or_default()`). -/
def Earlygirl.new (loaded : Option EarlyGirlPreferences) : Earlygirl :=
  let preferences := loaded.getD EarlyGirlPreferences.default
  { current_timer_duration := 0
    interval := preferences.work_interval
    timer_type := TimerType.WorkTime
    timer_state := TimerState.Idle
    preferences := preferences
    show_modal := false }

/-- Mirrors `Earlygirl::set_interval_for_work_type`. -/
def Earlygirl.set_interval_for_work_type (s : Earlygirl) : Earlygirl :=
  match s.timer_type with
  | TimerType.WorkTime => { s with interval := s.preferences.work_interval }
  | TimerType.BreakTime => { s with interval := s.preferences.break_interval }

/-- Mirrors `Earlygirl::reset_timer`. -/
def Earlygirl.reset_timer (s : Earlygirl) : Earlygirl :=
  Earlygirl.set_interval_for_work_type
    { s with timer_state := TimerState.Idle, current_timer_duration := 0 }

/-- Mirrors `Earlygirl::toggle_work_type`. -/
def Earlygirl.toggle_work_type (s : Earlygirl) : Earlygirl :=
  let s1 :=
    match s.timer_type with
    | TimerType.WorkTime =>
        let s2 := { s with timer_type := TimerType.BreakTime
                           interval := s.preferences.break_interval }
        if !s.preferences.auto_start_break then
          { s2 with timer_state := TimerState.Idle }
        else s2
    | TimerType.BreakTime =>
        let s2 := { s with timer_type := TimerType.WorkTime
                           interval := s.preferences.work_interval }
        if !s.preferences.auto_start_work then
          { s2 with timer_state := TimerState.Idle }
        else s2
  { s1 with current_timer_duration := 0 }

/-- Mirrors the message selection in `Earlygirl::send_notification`:
the match is on the CURRENT `timer_type` (the phase being completed,
since `send_notification` runs before `toggle_work_type`). -/
def notification_message (t : TimerType) : String :=
  match t with
  | TimerType.WorkTime => "Time to get back to work!"
  | TimerType.BreakTime => "Time for a break!"

/-- Mirrors `Earlygirl::write_preferences`.  The Rust body is
`assert!(save_result.is_ok())`: a failed save panics, modelled as
`none`; a successful save returns normally, modelled as `some ()`. -/
def write_preferences (save_result_is_ok : Bool) : Option Unit :=
  if save_result_is_ok then some () else none

/-- Mirrors `Earlygirl::update`.  `now` is the ambient clock used by
`Message::Toggle` (`Instant::now()` in the code); `Message::Tick`
carries its own timestamp.  The second component collects the
notification messages sent during the step.  Preference saves are
fire-and-forget for state purposes (see `write_preferences` for their
failure behaviour). -/
def Earlygirl.update (s : Earlygirl) (now : ℚ) (m : Message) :
    Earlygirl × List String :=
  match m with
  | Message.Toggle =>
      match s.timer_state with
      | TimerState.Idle =>
          (Earlygirl.set_interval_for_work_type
            { s with timer_state := TimerState.Ticking now
                     current_timer_duration := 0 }, [])
      | TimerState.Ticking _ =>
          ({ s with timer_state := TimerState.Idle }, [])
  | Message.Tick tnow =>
      match s.timer_state with
      | TimerState.Ticking last_tick =>
          let time_elapsed := durationSince tnow last_tick
          let s1 := { s with
            current_timer_duration := s.current_timer_duration + time_elapsed
            timer_state := TimerState.Ticking tnow }
          if s1.interval ≤ s1.current_timer_duration then
            (s1.toggle_work_type, [notification_message s1.timer_type])
          else
            (s1, [])
      | TimerState.Idle => (s, [])
  | Message.WorkIntervalChanged v =>
      (Earlygirl.set_interval_for_work_type
        { s with preferences := { s.preferences with work_interval := v * 60 } }, [])
  | Message.BreakIntervalChanged v =>
      (Earlygirl.set_interval_for_work_type
        { s with preferences := { s.preferences with break_interval := v * 60 } }, [])
  | Message.Reset => (s.reset_timer, [])
  | Message.SwitchWorkType => (s.toggle_work_type, [])
  | Message.ToggleSettings => ({ s with show_modal := !s.show_modal }, [])
  | Message.AutoStartWorkChanged b =>
      ({ s with preferences := { s.preferences with auto_start_work := b } }, [])
  | Message.AutoStartBreakChanged b =>
      ({ s with preferences := { s.preferences with auto_start_break := b } }, [])

/-- Mirrors the `time_remaining` computation in `Earlygirl::view`. -/
def Earlygirl.time_remaining (s : Earlygirl) : ℚ :=
  if s.interval ≤ s.current_timer_duration then 0
  else s.interval - s.current_timer_duration

/-- Mirrors the `timer_progress` computation in `Earlygirl::view`:
`(current_timer_duration / interval) * 100.0`, handed unchanged to a
`progress_bar(0.0..=100.0, _)` widget. -/
def Earlygirl.timer_progress (s : Earlygirl) : ℚ :=
  s.current_timer_duration / s.interval * 100

/-- Runs a sequence of events, each an ambient clock value paired with a
message, from a starting state, discarding notifications. -/
def Earlygirl.run (s : Earlygirl) (evs : List (ℚ × Message)) : Earlygirl :=
  evs.foldl (fun st ev => (st.update ev.1 ev.2).1) s

/-- The opposite phase (spec vocabulary for the Work↔Break flip). -/
def TimerType.flip : TimerType → TimerType
  | TimerType.WorkTime => TimerType.BreakTime
  | TimerType.BreakTime => TimerType.WorkTime

/-- The configured duration governing a given phase (spec: `active_interval`
is `settings.work_duration` if phase = Work else `settings.break_duration`). -/
def interval_for (t : TimerType) (p : EarlyGirlPreferences) : ℚ :=
  match t with
  | TimerType.WorkTime => p.work_interval
  | TimerType.BreakTime => p.break_interval

/-- The auto-start flag governing a given phase. -/
def auto_start_for (t : TimerType) (p : EarlyGirlPreferences) : Bool :=
  match t with
  | TimerType.WorkTime => p.auto_start_work
  | TimerType.BreakTime => p.auto_start_break

/-- The derived-interval invariant: `interval` always equals the configured
duration of the current phase. -/
def Earlygirl.interval_inv (s : Earlygirl) : Prop :=
  s.interval = interval_for s.timer_type s.preferences

/-- Reachable state with the timer running: default preferences, started at
t = 0, one tick at t = 5 (elapsed 5 s, far below the 2700 s work interval). -/
def trace_state_running : Earlygirl :=
  Earlygirl.run (Earlygirl.new none) [(0, Message.Toggle), (0, Message.Tick 5)]

/-- Reachable paused state: as `trace_state_running`, then `Toggle` pauses,
leaving `Idle` with elapsed = 5. -/
def trace_state_paused : Earlygirl :=
  Earlygirl.run (Earlygirl.new none)
    [(0, Message.Toggle), (0, Message.Tick 5), (0, Message.Toggle)]

/-- Reachable running state with `auto_start_break = true` (flag enabled via
its settings command, then the timer started). -/
def trace_state_autostart : Earlygirl :=
  Earlygirl.run (Earlygirl.new none)
    [(0, Message.AutoStartBreakChanged true), (0, Message.Toggle)]

/-- Reachable running state in which elapsed (400 s) exceeds the active
interval (300 s): the work duration was shrunk to 5 minutes mid-run. -/
def trace_state_overrun : Earlygirl :=
  Earlygirl.run (Earlygirl.new none)
    [(0, Message.Toggle), (0, Message.Tick 400), (0, Message.WorkIntervalChanged 5)]

/-- The step that completes the Work phase from a fresh default start:
state and notifications of the threshold-crossing tick at t = 2700. -/
def trace_work_complete : Earlygirl × List String :=
  (Earlygirl.run (Earlygirl.new none) [(0, Message.Toggle)]).update 0
    (Message.Tick 2700)

/-- The step that completes the Break phase: after the Work phase completed,
the timer is restarted at t = 3000 and the break interval (900 s) elapses. -/
def trace_break_complete : Earlygirl × List String :=
  (Earlygirl.run trace_work_complete.1 [(3000, Message.Toggle)]).update 0
    (Message.Tick 3900)

/-! Helper lemmas: the derived-interval invariant is established by
construction and preserved by every message. -/

theorem set_interval_establishes_inv (s : Earlygirl) :
    s.set_interval_for_work_type.interval_inv := by
  cases h : s.timer_type <;>
    simp [Earlygirl.set_interval_for_work_type, Earlygirl.interval_inv,
      interval_for, h]

theorem toggle_establishes_inv (s : Earlygirl) :
    s.toggle_work_type.interval_inv := by
  cases h : s.timer_type <;>
    cases hb : s.preferences.auto_start_break <;>
    cases hw : s.preferences.auto_start_work <;>
    simp [Earlygirl.toggle_work_type, Earlygirl.interval_inv, interval_for,
      h, hb, hw]

theorem new_establishes_inv (loaded : Option EarlyGirlPreferences) :
    (Earlygirl.new loaded).interval_inv := by
  simp [Earlygirl.new, Earlygirl.interval_inv, interval_for]

theorem update_preserves_inv (s : Earlygirl) (now : ℚ) (m : Message)
    (hs : s.interval_inv) : (s.update now m).1.interval_inv := by
  cases m with
  | Toggle =>
      cases hts : s.timer_state with
      | Idle =>
          simpa [Earlygirl.update, hts] using
            set_interval_establishes_inv
              { s with timer_state := TimerState.Ticking now
                       current_timer_duration := 0 }
      | Ticking lt =>
          simpa [Earlygirl.update, hts, Earlygirl.interval_inv] using hs
  | Tick tnow =>
      cases hts : s.timer_state with
      | Idle => simpa [Earlygirl.update, hts] using hs
      | Ticking lt =>
          simp only [Earlygirl.update, hts]
          split
          case isTrue => exact toggle_establishes_inv _
          case isFalse => simpa [Earlygirl.interval_inv] using hs
  | WorkIntervalChanged v =>
      exact set_interval_establishes_inv _
  | BreakIntervalChanged v =>
      exact set_interval_establishes_inv _
  | Reset => exact set_interval_establishes_inv _
  | SwitchWorkType => exact toggle_establishes_inv _
  | ToggleSettings => simpa [Earlygirl.update, Earlygirl.interval_inv] using hs
  | AutoStartWorkChanged b =>
      simpa [Earlygirl.update, Earlygirl.interval_inv, interval_for] using hs
  | AutoStartBreakChanged b =>
      simpa [Earlygirl.update, Earlygirl.interval_inv, interval_for] using hs

theorem run_preserves_inv (evs : List (ℚ × Message)) (s : Earlygirl)
    (hs : s.interval_inv) : (s.run evs).interval_inv := by
  induction evs generalizing s with
  | nil => exact hs
  | cons e rest ih =>
      exact ih ((s.update e.1 e.2).1) (update_preserves_inv s e.1 e.2 hs)

/-! Helper lemmas: closed forms of the concrete trace states (rational
arithmetic does not reduce definitionally, so these are settled once by
`norm_num` and reused). -/

theorem trace_state_running_eq :
    trace_state_running =
      { current_timer_duration := 5, interval := 2700
        timer_type := TimerType.WorkTime, timer_state := TimerState.Ticking 5
        preferences := { work_interval := 2700, break_interval := 900
                         auto_start_work := false, auto_start_break := false }
        show_modal := false } := by
  norm_num [trace_state_running, Earlygirl.run, Earlygirl.update, Earlygirl.new,
    EarlyGirlPreferences.default, Earlygirl.set_interval_for_work_type,
    durationSince]

theorem trace_state_paused_eq :
    trace_state_paused =
      { current_timer_duration := 5, interval := 2700
        timer_type := TimerType.WorkTime, timer_state := TimerState.Idle
        preferences := { work_interval := 2700, break_interval := 900
                         auto_start_work := false, auto_start_break := false }
        show_modal := false } := by
  norm_num [trace_state_paused, Earlygirl.run, Earlygirl.update, Earlygirl.new,
    EarlyGirlPreferences.default, Earlygirl.set_interval_for_work_type,
    durationSince]

theorem trace_state_autostart_eq :
    trace_state_autostart =
      { current_timer_duration := 0, interval := 2700
        timer_type := TimerType.WorkTime, timer_state := TimerState.Ticking 0
        preferences := { work_interval := 2700, break_interval := 900
                         auto_start_work := false, auto_start_break := true }
        show_modal := false } := by
  norm_num [trace_state_autostart, Earlygirl.run, Earlygirl.update,
    Earlygirl.new, EarlyGirlPreferences.default,
    Earlygirl.set_interval_for_work_type, durationSince]

theorem trace_state_overrun_eq :
    trace_state_overrun =
      { current_timer_duration := 400, interval := 300
        timer_type := TimerType.WorkTime, timer_state := TimerState.Ticking 400
        preferences := { work_interval := 300, break_interval := 900
                         auto_start_work := false, auto_start_break := false }
        show_modal := false } := by
  norm_num [trace_state_overrun, Earlygirl.run, Earlygirl.update, Earlygirl.new,
    EarlyGirlPreferences.default, Earlygirl.set_interval_for_work_type,
    durationSince]

theorem trace_work_complete_eq :
    trace_work_complete =
      ({ current_timer_duration := 0, interval := 900
         timer_type := TimerType.BreakTime, timer_state := TimerState.Idle
         preferences := { work_interval := 2700, break_interval := 900
                          auto_start_work := false, auto_start_break := false }
         show_modal := false }, ["Time to get back to work!"]) := by
  norm_num [trace_work_complete, Earlygirl.run, Earlygirl.update, Earlygirl.new,
    EarlyGirlPreferences.default, Earlygirl.set_interval_for_work_type,
    Earlygirl.toggle_work_type, durationSince, notification_message]

theorem trace_break_complete_eq :
    trace_break_complete =
      ({ current_timer_duration := 0, interval := 2700
         timer_type := TimerType.WorkTime, timer_state := TimerState.Idle
         preferences := { work_interval := 2700, break_interval := 900
                          auto_start_work := false, auto_start_break := false }
         show_modal := false }, ["Time for a break!"]) := by
  norm_num [trace_break_complete, trace_work_complete, Earlygirl.run,
    Earlygirl.update, Earlygirl.new, EarlyGirlPreferences.default,
    Earlygirl.set_interval_for_work_type, Earlygirl.toggle_work_type,
    durationSince, notification_message]

/-- Claim C1: the claim states that completing a Break notifies
"Time to get back to work!" and completing Work notifies
"Time for a break!".  The code does the opposite: `send_notification`
matches the still-current phase and sends the message named after it,
so a threshold-crossing tick in the Work phase (default settings,
started at t = 0, tick at t = 2700) notifies
"Time to get back to work!", and completing the Break phase notifies
"Time for a break!".  This theorem evaluates the code at both failing
inputs. -/
theorem C1_notification_messages_swapped :
    trace_work_complete.2 = ["Time to get back to work!"] ∧
    trace_break_complete.2 = ["Time for a break!"] ∧
    notification_message TimerType.WorkTime = "Time to get back to work!" ∧
    notification_message TimerType.BreakTime = "Time for a break!" := by
  rw [trace_work_complete_eq, trace_break_complete_eq]
  exact ⟨rfl, rfl, rfl, rfl⟩

/-- Claim C2 (counterexample): from the reachable running state with
`auto_start_break = true`, `SwitchWorkType` does NOT set the run state to
Idle — it stays `Ticking 0` — so the claim "sets the run state to Idle"
fails for every state. -/
theorem C2_counterexample :
    trace_state_autostart.timer_state = TimerState.Ticking 0 ∧
    trace_state_autostart.preferences.auto_start_break = true ∧
    (trace_state_autostart.update 0 Message.SwitchWorkType).1.timer_state ≠
      TimerState.Idle := by
  rw [trace_state_autostart_eq]
  refine ⟨rfl, rfl, ?_⟩
  norm_num [Earlygirl.update, Earlygirl.toggle_work_type]
  exact fun h => TimerState.noConfusion h

/-- Claim C2 (amended): for every state, `SwitchWorkType` flips the phase,
resets elapsed to 0, recomputes the active interval for the new phase, and
leaves the settings untouched; the run state becomes Idle unless the
auto-start flag for the NEW phase is true, in which case it is left
unchanged. -/
theorem C2_switch_phase_amended (s : Earlygirl) (now : ℚ) :
    (s.update now Message.SwitchWorkType).1.timer_type = s.timer_type.flip ∧
    (s.update now Message.SwitchWorkType).1.current_timer_duration = 0 ∧
    (s.update now Message.SwitchWorkType).1.interval =
      interval_for s.timer_type.flip s.preferences ∧
    (s.update now Message.SwitchWorkType).1.preferences = s.preferences ∧
    (s.update now Message.SwitchWorkType).1.timer_state =
      (if auto_start_for s.timer_type.flip s.preferences then s.timer_state
       else TimerState.Idle) := by
  cases h : s.timer_type <;>
    cases hb : s.preferences.auto_start_break <;>
    cases hw : s.preferences.auto_start_work <;>
    simp [Earlygirl.update, Earlygirl.toggle_work_type, TimerType.flip,
      interval_for, auto_start_for, h, hb, hw]

/-- Claim C3: the claim states that a failed preference save does not
crash the process.  The code runs `assert!(save_result.is_ok())`, which
panics on failure (modelled as `none`); only a successful save returns
normally. -/
theorem C3_save_failure_panics :
    write_preferences false = none ∧ write_preferences true = some () :=
  ⟨rfl, rfl⟩

/-- Claim C4 (counterexample): the reachable paused state has
`run_state = Idle` and `elapsed = 5`; after `Toggle; Toggle` the elapsed
time is 0, not 5, because `Toggle` out of Idle resets elapsed before
starting. -/
theorem C4_counterexample :
    trace_state_paused.timer_state = TimerState.Idle ∧
    trace_state_paused.current_timer_duration = 5 ∧
    ((trace_state_paused.update 10 Message.Toggle).1.update 11
        Message.Toggle).1.current_timer_duration ≠ 5 := by
  rw [trace_state_paused_eq]
  refine ⟨rfl, rfl, ?_⟩
  norm_num [Earlygirl.update, Earlygirl.set_interval_for_work_type]

/-- Claim C4 (amended): from every Idle state, `Toggle; Toggle` returns
to Idle with `elapsed = 0` (the first Toggle resets elapsed to 0 on
start, so the pre-pair value is not restored unless it was 0). -/
theorem C4_toggle_twice_amended (s : Earlygirl) (n1 n2 : ℚ)
    (h : s.timer_state = TimerState.Idle) :
    ((s.update n1 Message.Toggle).1.update n2 Message.Toggle).1.timer_state =
      TimerState.Idle ∧
    ((s.update n1 Message.Toggle).1.update n2
        Message.Toggle).1.current_timer_duration = 0 := by
  cases ht : s.timer_type <;>
    simp [Earlygirl.update, Earlygirl.set_interval_for_work_type, h, ht]

/-- Witness for C4: the amended theorem applied to the freshly created
engine, which is Idle. -/
theorem C4_toggle_twice_amended_witness :
    ((Earlygirl.new none).update 0 Message.Toggle).1.update 1
        Message.Toggle
      |>.1.current_timer_duration = 0 :=
  (C4_toggle_twice_amended (Earlygirl.new none) 0 1 rfl).2

/-! Further shared helper lemma. -/

theorem toggle_resets_duration (s : Earlygirl) :
    s.toggle_work_type.current_timer_duration = 0 := by
  cases h : s.timer_type <;>
    cases hb : s.preferences.auto_start_break <;>
    cases hw : s.preferences.auto_start_work <;>
    simp [Earlygirl.toggle_work_type, h, hb, hw]

/-- Claim C5 (counterexample): in the reachable state where elapsed (400 s)
exceeds the active interval (300 s), the progress value handed to the
presentation layer is elapsed/active_interval = 4/3 as a fraction — it is
not clamped to [0,1]. -/
theorem C5_counterexample :
    trace_state_overrun.timer_progress / 100 =
      trace_state_overrun.current_timer_duration /
        trace_state_overrun.interval ∧
    trace_state_overrun.timer_progress / 100 = 4 / 3 ∧
    ¬ trace_state_overrun.timer_progress / 100 ≤ 1 := by
  rw [trace_state_overrun_eq]
  norm_num [Earlygirl.timer_progress]

/-- Claim C5 (amended): the progress value equals
`elapsed / active_interval` (scaled to a 0–100 percentage for the progress
bar) and the engine applies NO clamping: it lies in [0,1] whenever
`0 ≤ elapsed ≤ active_interval`, but strictly exceeds 1 whenever elapsed
exceeds a positive active interval.  (Any clamping to the bar's 0..=100
range happens inside the GUI widget, outside the engine.) -/
theorem C5_progress_amended (s : Earlygirl) (hpos : 0 < s.interval) :
    s.timer_progress / 100 = s.current_timer_duration / s.interval ∧
    (0 ≤ s.current_timer_duration → s.current_timer_duration ≤ s.interval →
      0 ≤ s.timer_progress / 100 ∧ s.timer_progress / 100 ≤ 1) ∧
    (s.interval < s.current_timer_duration → 1 < s.timer_progress / 100) := by
  have hfrac : s.timer_progress / 100 = s.current_timer_duration / s.interval := by
    unfold Earlygirl.timer_progress
    ring
  refine ⟨hfrac, fun h0 h1 => ?_, fun hgt => ?_⟩
  · rw [hfrac]
    exact ⟨div_nonneg h0 hpos.le, (div_le_one hpos).mpr h1⟩
  · rw [hfrac]
    exact (one_lt_div hpos).mpr hgt

/-- Witness for C5: the amended theorem applied to the reachable overrun
state, whose interval is positive. -/
theorem C5_progress_amended_witness :
    0 < trace_state_overrun.interval ∧
    (trace_state_overrun.interval < trace_state_overrun.current_timer_duration →
      1 < trace_state_overrun.timer_progress / 100) := by
  have hpos : 0 < trace_state_overrun.interval := by
    rw [trace_state_overrun_eq]
    norm_num
  exact ⟨hpos, (C5_progress_amended trace_state_overrun hpos).2.2⟩

/-- Claim C6: whenever a tick crosses the threshold from a running state,
the new run state is `Ticking t` (last_tick = the tick's own timestamp)
when the auto-start flag of the NEW phase is set, and `Idle` otherwise,
so accumulation continues without a manual Toggle exactly when the flag
is set. -/
theorem C6_autostart_continues (s : Earlygirl) (now lt t : ℚ)
    (hrun : s.timer_state = TimerState.Ticking lt)
    (hcross : s.interval ≤ s.current_timer_duration + durationSince t lt) :
    (s.update now (Message.Tick t)).1.timer_state =
      (if auto_start_for s.timer_type.flip s.preferences then
        TimerState.Ticking t
      else TimerState.Idle) := by
  cases h : s.timer_type <;>
    cases hb : s.preferences.auto_start_break <;>
    cases hw : s.preferences.auto_start_work <;>
    simp [Earlygirl.update, hrun, Earlygirl.toggle_work_type, TimerType.flip,
      auto_start_for, h, hb, hw, hcross]

/-- Witness for C6: from the reachable running state with
`auto_start_break = true`, the work-completing tick at t = 2700 leaves the
timer running with last_tick 2700. -/
theorem C6_autostart_continues_witness :
    (trace_state_autostart.update 0 (Message.Tick 2700)).1.timer_state =
      (if auto_start_for trace_state_autostart.timer_type.flip
          trace_state_autostart.preferences then
        TimerState.Ticking 2700
      else TimerState.Idle) := by
  refine C6_autostart_continues trace_state_autostart 0 0 2700 ?_ ?_
  · rw [trace_state_autostart_eq]
  · rw [trace_state_autostart_eq]
    norm_num [durationSince]

/-- Claim C7: in every state reachable from the freshly constructed engine
(whatever the preference load produced) by any event sequence, the active
interval equals the configured duration of the current phase — it never
drifts from this derived value. -/
theorem C7_interval_invariant (loaded : Option EarlyGirlPreferences)
    (evs : List (ℚ × Message)) :
    ((Earlygirl.new loaded).run evs).interval_inv :=
  run_preserves_inv evs (Earlygirl.new loaded) (new_establishes_inv loaded)

/-- Claim C8 (counterexample): in the reachable running state with
elapsed = 400 and active interval 300, a tick whose timestamp 399 precedes
the stored last_tick 400 does NOT leave elapsed unchanged: the already-met
threshold fires the phase transition and elapsed drops to 0. -/
theorem C8_counterexample :
    trace_state_overrun.timer_state = TimerState.Ticking 400 ∧
    trace_state_overrun.current_timer_duration = 400 ∧
    (399 : ℚ) < 400 ∧
    (trace_state_overrun.update 0 (Message.Tick 399)).1.current_timer_duration
      = 0 ∧
    (trace_state_overrun.update 0 (Message.Tick 399)).1.current_timer_duration
      ≠ trace_state_overrun.current_timer_duration := by
  rw [trace_state_overrun_eq]
  norm_num [Earlygirl.update, Earlygirl.toggle_work_type, durationSince]

/-- Claim C8 (amended): a tick whose timestamp does not exceed the stored
last_tick contributes zero to elapsed (the saturating delta never
subtracts); elapsed is therefore unchanged whenever it was still below the
active interval, and drops to 0 only because the already-met threshold
fires the pending phase transition. -/
theorem C8_backward_tick_amended (s : Earlygirl) (now lt t : ℚ)
    (hrun : s.timer_state = TimerState.Ticking lt) (hback : t ≤ lt) :
    (s.update now (Message.Tick t)).1.current_timer_duration =
      (if s.interval ≤ s.current_timer_duration then 0
       else s.current_timer_duration) := by
  have hd : durationSince t lt = 0 := by
    simp [durationSince, hback]
  by_cases hc : s.interval ≤ s.current_timer_duration
  · simp [Earlygirl.update, hrun, hd, hc, toggle_resets_duration]
  · simp [Earlygirl.update, hrun, hd, hc]

/-- Witness for C8: a backward tick (t = 3 against last_tick 5) on the
reachable running state with elapsed 5 below its 2700 s interval. -/
theorem C8_backward_tick_amended_witness :
    (trace_state_running.update 0 (Message.Tick 3)).1.current_timer_duration =
      (if trace_state_running.interval ≤
          trace_state_running.current_timer_duration then 0
       else trace_state_running.current_timer_duration) := by
  refine C8_backward_tick_amended trace_state_running 0 5 3 ?_ ?_
  · rw [trace_state_running_eq]
  · norm_num

/-- Claim C9: in any state satisfying the derived-interval invariant (which
holds in every reachable state, see the C7 development), changing the
duration of the INACTIVE phase leaves the active interval unchanged, and
the stored setting of the active phase is also untouched. -/
theorem C9_inactive_duration_frame (s : Earlygirl) (now v : ℚ)
    (hinv : s.interval_inv) :
    (s.timer_type = TimerType.BreakTime →
      (s.update now (Message.WorkIntervalChanged v)).1.interval = s.interval ∧
      (s.update now (Message.WorkIntervalChanged v)).1.preferences.break_interval
        = s.preferences.break_interval) ∧
    (s.timer_type = TimerType.WorkTime →
      (s.update now (Message.BreakIntervalChanged v)).1.interval = s.interval ∧
      (s.update now (Message.BreakIntervalChanged v)).1.preferences.work_interval
        = s.preferences.work_interval) := by
  rw [Earlygirl.interval_inv] at hinv
  constructor
  · intro h
    rw [h] at hinv
    simp [Earlygirl.update, Earlygirl.set_interval_for_work_type, h, hinv,
      interval_for]
  · intro h
    rw [h] at hinv
    simp [Earlygirl.update, Earlygirl.set_interval_for_work_type, h, hinv,
      interval_for]

/-- Witness for C9: on the freshly constructed engine (phase Work),
changing the break duration leaves the active interval unchanged. -/
theorem C9_inactive_duration_frame_witness :
    ((Earlygirl.new none).update 0 (Message.BreakIntervalChanged 10)).1.interval
      = (Earlygirl.new none).interval :=
  ((C9_inactive_duration_frame (Earlygirl.new none) 0 10
    (new_establishes_inv none)).2 rfl).1

/-- Claim C10: for every state, `Reset` leaves the current phase unchanged
while resetting elapsed to 0 and the run state to Idle — it never flips
the phase back to Work. -/
theorem C10_reset_preserves_phase (s : Earlygirl) (now : ℚ) :
    (s.update now Message.Reset).1.timer_type = s.timer_type ∧
    (s.update now Message.Reset).1.current_timer_duration = 0 ∧
    (s.update now Message.Reset).1.timer_state = TimerState.Idle := by
  cases h : s.timer_type <;>
    simp [Earlygirl.update, Earlygirl.reset_timer,
      Earlygirl.set_interval_for_work_type, h]
